import Mathlib

/-!
# Verification of the data-engineering-studies polling and S3 wrapper code

Shallow embedding of the control flow of `aws-glue-athena-studies/main.py`
(the crawler polling loop in `__main__` lines 656-665 and `GlueCrawler.run`
lines 431-436, the Athena result-fetch block lines 701-712, and the module
function `get_crawler` lines 61-80) and of the S3 wrapper functions in
`boto-s3-studies/functional_low_level.py`.

External boto3 clients are modelled as oracles: structures whose fields give
the response (a value, or a raised exception) of each remote capability call.
Python exceptions are modelled by an `Except` result; the relevant exception
classes (`botocore.ClientError`, `ValueError`, `TypeError`) form the `PyExc`
type.  Where a claim depends on which remote calls are made and in which
order, functions additionally return an event trace.
-/

namespace DataEngStudies

/-- Python exceptions distinguished by the repository's `except` clauses:
`botocore.exceptions.ClientError` carries the AWS error code
(`err.response['Error']['Code']`); `ValueError` and `TypeError` are raised by
`delete_objects_from_bucket`'s argument checks. -/
inductive PyExc where
  | clientError (code : String)
  | valueError (msg : String)
  | typeError (msg : String)
  deriving DecidableEq, Repr

/-! ## The crawler polling loop

`main.py` lines 656-665:

    crawler_state = None
    while crawler_state != 'READY':
        time.sleep(10)
        crawler = client.get_crawler(Name=crawler_name)
        crawler_state = crawler['Crawler']['State']
        print(f"Crawler is \x7bcrawler_state\x7d.")

(`GlueCrawler.run` lines 431-436 has the same structure, with `self.wait(10)`
for the sleep.)  Each iteration sleeps 10 seconds, then issues one
`get_crawler` status query; the query either returns a state string or raises.
The environment is modelled as the finite list of successive query responses.
-/

/-- One response of the `get_crawler` status query: a returned state string,
or a raised exception. -/
inductive QueryResp where
  | ok (state : String)
  | exc (e : PyExc)
  deriving DecidableEq, Repr

/-- Observable events of the polling loop: a `time.sleep(secs)` call, or a
`get_crawler` status-query call together with its response. -/
inductive PollEvent where
  | sleep (secs : Nat)
  | query (r : QueryResp)
  deriving DecidableEq, Repr

/-- How a run of the polling loop ends: the loop exits normally with the last
state, a query raises and the exception propagates (there is no `try` around
the loop), or the supplied response list is exhausted while the loop is still
running. -/
inductive PollResult where
  | finished (state : String)
  | raised (e : PyExc)
  | outOfResponses
  deriving DecidableEq, Repr

/-- The crawler polling loop of `main.py` lines 659-665 run against a finite
list of query responses.  Returns the way the run ends together with the event
trace.  The loop guard is `crawler_state != 'READY'` with `crawler_state`
initialised to `None`, so the body always runs at least once and the loop
exits exactly when a query returns `'READY'`. -/
def crawlerPoll : List QueryResp → PollResult × List PollEvent
  | [] => (.outOfResponses, [])
  | .exc e :: _ => (.raised e, [.sleep 10, .query (.exc e)])
  | .ok s :: rest =>
    if s = "READY" then
      (.finished s, [.sleep 10, .query (.ok s)])
    else
      ((crawlerPoll rest).1, .sleep 10 :: .query (.ok s) :: (crawlerPoll rest).2)

/-- Number of status queries performed in a trace. -/
def numQueries (evs : List PollEvent) : Nat :=
  (evs.filter fun e => match e with | .query _ => true | _ => false).length

/-- Number of sleep calls performed in a trace. -/
def numSleeps (evs : List PollEvent) : Nat :=
  (evs.filter fun e => match e with | .sleep _ => true | _ => false).length

/-- The prefix of the response list actually consumed by the loop: everything
up to and including the first `'READY'` response or the first raising
response. -/
def consumedResponses : List QueryResp → List QueryResp
  | [] => []
  | .exc e :: _ => [.exc e]
  | .ok s :: rest =>
    if s = "READY" then [.ok s] else .ok s :: consumedResponses rest

/-- The trace of a run is one `sleep 10` followed by one query, for each
consumed response, in order. -/
theorem crawlerPoll_trace (rs : List QueryResp) :
    (crawlerPoll rs).2 =
      (consumedResponses rs).flatMap fun r => [PollEvent.sleep 10, PollEvent.query r] := by
  induction rs with
  | nil => simp [crawlerPoll, consumedResponses]
  | cons r rest ih =>
    cases r with
    | exc e => simp [crawlerPoll, consumedResponses]
    | ok s =>
      by_cases h : s = "READY"
      · simp [crawlerPoll, consumedResponses, h]
      · simp [crawlerPoll, consumedResponses, h, ih]

theorem numQueries_append (a b : List PollEvent) :
    numQueries (a ++ b) = numQueries a + numQueries b := by
  simp [numQueries, List.filter_append]

theorem numSleeps_append (a b : List PollEvent) :
    numSleeps (a ++ b) = numSleeps a + numSleeps b := by
  simp [numSleeps, List.filter_append]

/-! ## The Athena result-fetch block

`main.py` lines 701-712:

    time.sleep(10)
    response_get_query_details = athena.get_query_execution(QueryExecutionId = ...)
    status = response_get_query_details['QueryExecution']['Status']['State']
    if status == 'SUCCEEDED':
        location = ...['ResultConfiguration']['OutputLocation']
        response_query_result = athena.get_query_results(QueryExecutionId = ...)
        result_data = response_query_result['ResultSet']

The block performs one `get_query_execution` status query; only when the
returned state is `'SUCCEEDED'` does it call `get_query_results`.  On any
other state it simply falls through: nothing is fetched and nothing is
raised. -/

/-- The data the Athena fragment reads from the service: the query-execution
state (`...['Status']['State']`) and the result set that `get_query_results`
would return. -/
structure AthenaResp where
  state : String
  resultSet : String
  deriving DecidableEq, Repr

/-- Observable events of the Athena fragment. -/
inductive AthenaEvent where
  | sleep (secs : Nat)
  | getQueryExecution
  | getQueryResults
  deriving DecidableEq, Repr

/-- Outcome of the result-fetch step.  `fetched` means `get_query_results`
was called and its `ResultSet` bound; `skipped` means the `if` guard failed
and the block did nothing.  `resultUnavailableError` is the failure the spec's
Result Fetcher contract prescribes for a non-success status; the code never
produces it, it exists so code and spec can be compared in one domain. -/
inductive FetchOutcome where
  | fetched (resultSet : String)
  | skipped
  | resultUnavailableError
  deriving DecidableEq, Repr

/-- The Athena result-fetch block of `main.py` lines 701-712, returning the
outcome and the event trace. -/
def athenaFetchBlock (resp : AthenaResp) : FetchOutcome × List AthenaEvent :=
  if resp.state = "SUCCEEDED" then
    (.fetched resp.resultSet,
      [.sleep 10, .getQueryExecution, .getQueryResults])
  else
    (.skipped, [.sleep 10, .getQueryExecution])

/-- Modelled from the spec: the Result Fetcher contract of spec section 4.3
("Fails with `ResultUnavailableError` if invoked on a handle whose last known
status was not success-terminal"), which no code under `src/` implements.
Used only to compare the code's behaviour with the spec's words. -/
def fetchResultSpec (resp : AthenaResp) : FetchOutcome :=
  if resp.state = "SUCCEEDED" then .fetched resp.resultSet
  else .resultUnavailableError

/-! ## The Glue `get_crawler` wrapper

`main.py` lines 61-80: `get_crawler(client, name)` initialises `crawler` to
`None`, calls `client.get_crawler(Name=name)` and unwraps `['Crawler']`; an
`EntityNotFoundException` `ClientError` is only logged (so `None` is
returned), any other `ClientError` is logged and re-raised; non-`ClientError`
exceptions are not caught. -/

/-- A boto3 Glue client, as the oracle giving each `get_crawler(Name=name)`
call's response: the `['Crawler']` payload (opaque here), or a raised
exception. -/
structure GlueClient where
  getCrawlerResp : String → Except PyExc String

/-- `get_crawler` of `main.py` lines 61-80.  `Except` error means the Python
function raises; `.ok none` is Python's `None` return. -/
def get_crawler (c : GlueClient) (name : String) : Except PyExc (Option String) :=
  match c.getCrawlerResp name with
  | .ok crawler => .ok (some crawler)
  | .error (.clientError code) =>
    if code = "EntityNotFoundException" then .ok none
    else .error (.clientError code)
  | .error e => .error e

/-! ## The S3 wrapper functions (`boto-s3-studies/functional_low_level.py`) -/

/-- A boto3 S3 client, as the oracle giving each remote call's response.
`listObjectsResp` abstracts the `list_objects_v2` response by its list of
object keys (`KeyCount` is its length, `Contents` its entries). -/
structure S3Client where
  createBucketResp : String → Option String → Except PyExc Unit
  listBucketsResp : Except PyExc (List String)
  listObjectsResp : String → Except PyExc (List String)
  deleteObjectResp : String → String → Except PyExc Unit
  deleteObjectsResp : String → List String → Except PyExc Unit
  deleteBucketResp : String → Except PyExc Unit
  getBucketCorsResp : String → Except PyExc (List String)

/-- Remote S3 capability calls, for traces of which calls a function makes. -/
inductive RemoteCall where
  | createBucket (bucket : String) (region : Option String)
  | listBuckets
  | listObjects (bucket : String)
  | deleteObject (bucket key : String)
  | deleteObjects (bucket : String) (keys : List String)
  | deleteBucket (bucket : String)
  | getBucketCors (bucket : String)
  deriving DecidableEq, Repr

/-- `create_bucket` (lines 25-47): calls `client.create_bucket` (with or
without a `CreateBucketConfiguration` according to `region`), returns `True`
on success; a `ClientError` is logged and `False` returned; other exceptions
propagate. -/
def create_bucket (c : S3Client) (bucket : String) (region : Option String) :
    Except PyExc Bool :=
  match c.createBucketResp bucket region with
  | .ok _ => .ok true
  | .error (.clientError _) => .ok false
  | .error e => .error e

/-- `get_list_of_existing_buckets` (lines 53-64): returns the bucket names of
`list_buckets`; a `ClientError` is logged and the empty list returned; other
exceptions propagate. -/
def get_list_of_existing_buckets (c : S3Client) : Except PyExc (List String) :=
  match c.listBucketsResp with
  | .ok buckets => .ok buckets
  | .error (.clientError _) => .ok []
  | .error e => .error e

/-- `check_if_bucket_exists` (lines 67-76): `True` iff `bucket` is in the
list produced by `get_list_of_existing_buckets`. -/
def check_if_bucket_exists (c : S3Client) (bucket : String) : Except PyExc Bool :=
  match get_list_of_existing_buckets c with
  | .ok buckets => .ok (buckets.contains bucket)
  | .error e => .error e

/-- `get_list_objects_in_bucket` (lines 79-94): calls `list_objects_v2` with
no exception handling; if `KeyCount > 0` returns the keys of `Contents`, else
logs and returns the empty list. -/
def get_list_objects_in_bucket (c : S3Client) (bucket : String) :
    Except PyExc (List String) × List RemoteCall :=
  match c.listObjectsResp bucket with
  | .error e => (.error e, [.listObjects bucket])
  | .ok keys =>
    if keys.length > 0 then (.ok keys, [.listObjects bucket])
    else (.ok [], [.listObjects bucket])

/-- The dynamically-typed `object_list` argument of
`delete_objects_from_bucket`: a Python list of key strings, or any
non-list value. -/
inductive PyObjectList where
  | strList (keys : List String)
  | nonList
  deriving DecidableEq, Repr

/-- `delete_objects_from_bucket` (lines 154-183): raises `TypeError` when
`object_list` is not a list and `ValueError` when it is empty, both before
any remote call; then calls `delete_object` with the single key when the list
has one element, `delete_objects` with all keys when it has more; inside the
`try`, any exception from the remote call is logged and `False` returned. -/
def delete_objects_from_bucket (c : S3Client) (bucket : String)
    (object_list : PyObjectList) : Except PyExc Bool × List RemoteCall :=
  match object_list with
  | .nonList => (.error (.typeError "object_list must be a list"), [])
  | .strList [] => (.error (.valueError "object_list must not be empty"), [])
  | .strList [k] =>
    match c.deleteObjectResp bucket k with
    | .ok _ => (.ok true, [.deleteObject bucket k])
    | .error _ => (.ok false, [.deleteObject bucket k])
  | .strList keys =>
    match c.deleteObjectsResp bucket keys with
    | .ok _ => (.ok true, [.deleteObjects bucket keys])
    | .error _ => (.ok false, [.deleteObjects bucket keys])

/-- `delete_bucket` (lines 205-219): calls `delete_bucket`; any exception is
logged and `False` returned, so the function never raises. -/
def delete_bucket (c : S3Client) (bucket : String) :
    Except PyExc Bool × List RemoteCall :=
  match c.deleteBucketResp bucket with
  | .ok _ => (.ok true, [.deleteBucket bucket])
  | .error _ => (.ok false, [.deleteBucket bucket])

/-- The effect of `nuke_bucket`'s `except ClientError` clause: a raised
`ClientError` becomes a logged `return False`; everything else passes
through. -/
def catchClientError (r : Except PyExc Bool) : Except PyExc Bool :=
  match r with
  | .error (.clientError _) => .ok false
  | x => x

/-- `nuke_bucket` (lines 186-202): lists the bucket's objects, deletes them
via `delete_objects_from_bucket`, deletes the bucket, and returns `True`;
the whole body is wrapped in `try ... except ClientError: return False`.
The boolean results of the two helper calls are ignored, as in the source. -/
def nuke_bucket (c : S3Client) (bucket : String) :
    Except PyExc Bool × List RemoteCall :=
  match get_list_objects_in_bucket c bucket with
  | (.error e, t1) => (catchClientError (.error e), t1)
  | (.ok objects, t1) =>
    match delete_objects_from_bucket c bucket (.strList objects) with
    | (.error e, t2) => (catchClientError (.error e), t1 ++ t2)
    | (.ok _, t2) =>
      match delete_bucket c bucket with
      | (.error e, t3) => (catchClientError (.error e), t1 ++ t2 ++ t3)
      | (.ok _, t3) => (.ok true, t1 ++ t2 ++ t3)

/-- `get_bucket_cors` (lines 300-317): returns the `CORSRules`; a
`NoSuchCORSConfiguration` `ClientError` yields the empty list; any other
`ClientError` is logged and Python `None` (here `.ok none`) returned; other
exceptions propagate. -/
def get_bucket_cors (c : S3Client) (bucket : String) :
    Except PyExc (Option (List String)) :=
  match c.getBucketCorsResp bucket with
  | .ok rules => .ok (some rules)
  | .error (.clientError code) =>
    if code = "NoSuchCORSConfiguration" then .ok (some [])
    else .ok none
  | .error e => .error e

/-- An S3 client whose every call succeeds trivially: no buckets, no objects,
no CORS rules.  Concrete clients for witnesses and counterexamples override
single fields. -/
def baseClient : S3Client where
  createBucketResp := fun _ _ => .ok ()
  listBucketsResp := .ok []
  listObjectsResp := fun _ => .ok []
  deleteObjectResp := fun _ _ => .ok ()
  deleteObjectsResp := fun _ _ => .ok ()
  deleteBucketResp := fun _ => .ok ()
  getBucketCorsResp := fun _ => .ok []

/-! ## Theorems about the crawler polling loop -/

/-- Each consumed response contributes exactly one status query to the
trace. -/
theorem numQueries_crawlerPoll (rs : List QueryResp) :
    numQueries (crawlerPoll rs).2 = (consumedResponses rs).length := by
  rw [crawlerPoll_trace]
  induction consumedResponses rs with
  | nil => simp [numQueries]
  | cons r t ih =>
    rw [List.flatMap_cons, numQueries_append, ih]
    simp [numQueries]
    omega

/-- Each consumed response contributes exactly one sleep to the trace. -/
theorem numSleeps_crawlerPoll (rs : List QueryResp) :
    numSleeps (crawlerPoll rs).2 = (consumedResponses rs).length := by
  rw [crawlerPoll_trace]
  induction consumedResponses rs with
  | nil => simp [numSleeps]
  | cons r t ih =>
    rw [List.flatMap_cons, numSleeps_append, ih]
    simp [numSleeps]
    omega

/-- Claim C1, as stated, at the run whose status queries answer FAILED then
READY: FAILED is a terminal status in the claim's sense (any non-running
status), yet the loop of `main.py` lines 659-665 performs a second query
after observing it and finishes with READY, not FAILED.  This refutes
"the poller stops at the first terminal status observed, returns exactly
that status, and performs no further status queries afterward". -/
theorem C1_counterexample :
    (crawlerPoll [QueryResp.ok "FAILED", QueryResp.ok "READY"]).1 =
      PollResult.finished "READY" ∧
    numQueries (crawlerPoll [QueryResp.ok "FAILED", QueryResp.ok "READY"]).2 = 2 ∧
    ("FAILED" : String) ≠ "RUNNING" ∧
    ¬ ((crawlerPoll [QueryResp.ok "FAILED", QueryResp.ok "READY"]).1 =
          PollResult.finished "FAILED" ∧
       numQueries (crawlerPoll [QueryResp.ok "FAILED", QueryResp.ok "READY"]).2 = 1) := by
  decide

/-- Claim C1 amended: the loop guard is `crawler_state != 'READY'`, so the
poller stops only at the first READY response: whenever a run finishes, the
returned state is READY, every response queried before it was a returned
(non-raising) non-READY state, and the number of queries performed is the
position of that first READY response — no query happens after it. -/
theorem C1_amended_poller_stops_only_at_ready (rs : List QueryResp) (s : String)
    (h : (crawlerPoll rs).1 = PollResult.finished s) :
    s = "READY" ∧
    ∃ pre post, rs = pre ++ QueryResp.ok "READY" :: post ∧
      (∀ r ∈ pre, ∃ t, r = QueryResp.ok t ∧ t ≠ "READY") ∧
      numQueries (crawlerPoll rs).2 = pre.length + 1 := by
  induction rs with
  | nil => simp [crawlerPoll] at h
  | cons r rest ih =>
    cases r with
    | exc e => simp [crawlerPoll] at h
    | ok t =>
      by_cases ht : t = "READY"
      · subst ht
        simp [crawlerPoll] at h
        refine ⟨h.symm, [], rest, by simp, by simp, ?_⟩
        simp [numQueries_crawlerPoll, consumedResponses]
      · rw [show crawlerPoll (QueryResp.ok t :: rest) =
              ((crawlerPoll rest).1,
                PollEvent.sleep 10 :: PollEvent.query (QueryResp.ok t) ::
                  (crawlerPoll rest).2) by simp [crawlerPoll, ht]] at h ⊢
        obtain ⟨hs, pre, post, hsplit, hpre, hq⟩ := ih h
        refine ⟨hs, QueryResp.ok t :: pre, post, by simp [hsplit], ?_, ?_⟩
        · intro r hr
          rcases List.mem_cons.mp hr with h1 | h2
          · exact ⟨t, h1, ht⟩
          · exact hpre r h2
        · simpa [numQueries] using hq

/-- Witness for C1: the run RUNNING, READY finishes; the amended theorem
applies to it. -/
theorem C1_witness :
    (crawlerPoll [QueryResp.ok "RUNNING", QueryResp.ok "READY"]).1 =
      PollResult.finished "READY" ∧
    ("READY" = "READY" ∧
      ∃ pre post,
        [QueryResp.ok "RUNNING", QueryResp.ok "READY"] =
          pre ++ QueryResp.ok "READY" :: post ∧
        (∀ r ∈ pre, ∃ t, r = QueryResp.ok t ∧ t ≠ "READY") ∧
        numQueries (crawlerPoll [QueryResp.ok "RUNNING", QueryResp.ok "READY"]).2 =
          pre.length + 1) :=
  ⟨by decide,
   C1_amended_poller_stops_only_at_ready
     [QueryResp.ok "RUNNING", QueryResp.ok "READY"] "READY" (by decide)⟩

/-- Claim C2, as stated, at the run answering RUNNING four times: the spec's
scenario configures a maximum wait of 3 polls, yet the loop of `main.py`
lines 659-665 performs a 4th query, is still running after all four, and has
raised nothing — there is no `PollTimeoutError` (no timeout exists in the
code). -/
theorem C2_counterexample :
    (crawlerPoll (List.replicate 4 (QueryResp.ok "RUNNING"))).1 =
      PollResult.outOfResponses ∧
    numQueries (crawlerPoll (List.replicate 4 (QueryResp.ok "RUNNING"))).2 = 4 := by
  decide

/-- Claim C2 amended: the loop has no maximum wait.  On any response
sequence that never returns READY and never raises, the loop consumes every
response (one query per response) and neither returns nor fails: it is still
polling, so with such responses supplied forever it never terminates and no
`PollTimeoutError` ever arises. -/
theorem C2_amended_no_timeout (rs : List QueryResp)
    (h : ∀ r ∈ rs, ∃ t, r = QueryResp.ok t ∧ t ≠ "READY") :
    (crawlerPoll rs).1 = PollResult.outOfResponses ∧
    numQueries (crawlerPoll rs).2 = rs.length := by
  induction rs with
  | nil => simp [crawlerPoll, numQueries]
  | cons r rest ih =>
    obtain ⟨t, rfl, ht⟩ := h r (List.mem_cons_self r rest)
    have hrest := ih fun r hr => h r (List.mem_cons_of_mem _ hr)
    rw [show crawlerPoll (QueryResp.ok t :: rest) =
          ((crawlerPoll rest).1,
            PollEvent.sleep 10 :: PollEvent.query (QueryResp.ok t) ::
              (crawlerPoll rest).2) by simp [crawlerPoll, ht]]
    refine ⟨hrest.1, ?_⟩
    simpa [numQueries] using hrest.2

/-- Witness for C2: a run of two RUNNING responses satisfies the
hypothesis. -/
theorem C2_witness :
    (crawlerPoll [QueryResp.ok "RUNNING", QueryResp.ok "RUNNING"]).1 =
      PollResult.outOfResponses ∧
    numQueries (crawlerPoll [QueryResp.ok "RUNNING", QueryResp.ok "RUNNING"]).2 = 2 :=
  C2_amended_no_timeout [QueryResp.ok "RUNNING", QueryResp.ok "RUNNING"]
    (by
      intro r hr
      rcases List.mem_cons.mp hr with h1 | h2
      · exact ⟨"RUNNING", h1, by decide⟩
      · exact ⟨"RUNNING", by simpa using h2, by decide⟩)

/-- Claim C4, as stated, at the run raising TransientError twice and then
returning FAILED: the claim says the poller retries twice and returns FAILED
on the third attempt; the code has no retry — the first raising query aborts
the run with that exception after exactly one query, and FAILED is never
returned. -/
theorem C4_counterexample :
    (crawlerPoll
      [QueryResp.exc (PyExc.clientError "TransientError"),
       QueryResp.exc (PyExc.clientError "TransientError"),
       QueryResp.ok "FAILED"]).1 =
      PollResult.raised (PyExc.clientError "TransientError") ∧
    numQueries (crawlerPoll
      [QueryResp.exc (PyExc.clientError "TransientError"),
       QueryResp.exc (PyExc.clientError "TransientError"),
       QueryResp.ok "FAILED"]).2 = 1 ∧
    (crawlerPoll
      [QueryResp.exc (PyExc.clientError "TransientError"),
       QueryResp.exc (PyExc.clientError "TransientError"),
       QueryResp.ok "FAILED"]).1 ≠ PollResult.finished "FAILED" := by
  decide

/-- Claim C4 amended: there is no `try` around the loop body and no retry
anywhere: the first status query that raises aborts the run immediately with
that exception, having performed exactly one query beyond the preceding
non-READY responses; the remaining responses are never queried. -/
theorem C4_amended_no_retry (pre : List QueryResp) (e : PyExc) (post : List QueryResp)
    (h : ∀ r ∈ pre, ∃ t, r = QueryResp.ok t ∧ t ≠ "READY") :
    (crawlerPoll (pre ++ QueryResp.exc e :: post)).1 = PollResult.raised e ∧
    numQueries (crawlerPoll (pre ++ QueryResp.exc e :: post)).2 = pre.length + 1 := by
  induction pre with
  | nil => simp [crawlerPoll, numQueries]
  | cons r rest ih =>
    obtain ⟨t, rfl, ht⟩ := h r (List.mem_cons_self r rest)
    have hrest := ih fun r hr => h r (List.mem_cons_of_mem _ hr)
    rw [List.cons_append,
      show crawlerPoll (QueryResp.ok t :: (rest ++ QueryResp.exc e :: post)) =
        ((crawlerPoll (rest ++ QueryResp.exc e :: post)).1,
          PollEvent.sleep 10 :: PollEvent.query (QueryResp.ok t) ::
            (crawlerPoll (rest ++ QueryResp.exc e :: post)).2) by simp [crawlerPoll, ht]]
    refine ⟨hrest.1, ?_⟩
    simp only [List.length_cons]
    simpa [numQueries] using hrest.2

/-- Witness for C4: one RUNNING response, then a raising query. -/
theorem C4_witness :
    (crawlerPoll
      ([QueryResp.ok "RUNNING"] ++
        QueryResp.exc (PyExc.clientError "ThrottlingException") ::
          [QueryResp.ok "FAILED"])).1 =
      PollResult.raised (PyExc.clientError "ThrottlingException") ∧
    numQueries (crawlerPoll
      ([QueryResp.ok "RUNNING"] ++
        QueryResp.exc (PyExc.clientError "ThrottlingException") ::
          [QueryResp.ok "FAILED"])).2 = [QueryResp.ok "RUNNING"].length + 1 :=
  C4_amended_no_retry [QueryResp.ok "RUNNING"]
    (PyExc.clientError "ThrottlingException") [QueryResp.ok "FAILED"]
    (by
      intro r hr
      exact ⟨"RUNNING", by simpa using hr, by decide⟩)

/-- Claim C7, as stated, at the run whose single query answers READY: the
claim says sleeps occur only between queries and not before the first, so a
one-query run should contain no sleep; the code sleeps once, and that sleep
comes before the first (and only) query. -/
theorem C7_counterexample :
    (crawlerPoll [QueryResp.ok "READY"]).2 =
      [PollEvent.sleep 10, PollEvent.query (QueryResp.ok "READY")] ∧
    (crawlerPoll [QueryResp.ok "READY"]).2.head? = some (PollEvent.sleep 10) ∧
    numSleeps (crawlerPoll [QueryResp.ok "READY"]).2 = 1 ∧
    numQueries (crawlerPoll [QueryResp.ok "READY"]).2 = 1 := by
  decide

/-- Claim C7 amended: `time.sleep(10)` is the first statement of the loop
body, so the trace of every run is exactly one 10-second sleep followed by
one query, repeated once per consumed response: every query is immediately
preceded by its own sleep (including the first), sleeps and queries are equal
in number, and nothing follows the final query. -/
theorem C7_amended_sleep_before_each_query (rs : List QueryResp) :
    numSleeps (crawlerPoll rs).2 = numQueries (crawlerPoll rs).2 ∧
    (crawlerPoll rs).2 =
      (consumedResponses rs).flatMap
        fun r => [PollEvent.sleep 10, PollEvent.query r] :=
  ⟨by rw [numSleeps_crawlerPoll, numQueries_crawlerPoll], crawlerPoll_trace rs⟩

/-! ## Theorems about the Athena result-fetch block -/

/-- Claim C3, as stated, at a query execution whose state is FAILED: the
code's fetch block skips fetching (no `get_query_results` call) but produces
no error at all — it does not fail with `ResultUnavailableError` as the claim
says; the spec-modelled fetcher does. -/
theorem C3_counterexample :
    (athenaFetchBlock ⟨"FAILED", "rows"⟩).1 = FetchOutcome.skipped ∧
    (athenaFetchBlock ⟨"FAILED", "rows"⟩).1 ≠ FetchOutcome.resultUnavailableError ∧
    AthenaEvent.getQueryResults ∉ (athenaFetchBlock ⟨"FAILED", "rows"⟩).2 ∧
    fetchResultSpec ⟨"FAILED", "rows"⟩ = FetchOutcome.resultUnavailableError := by
  decide

/-- Claim C3 amended: `get_query_results` is invoked exactly when the
observed state is SUCCEEDED, in which case its `ResultSet` is returned; for
every other state the block silently does nothing — no fetch call and no
error. -/
theorem C3_amended_fetch_guarded_silent_skip (resp : AthenaResp) :
    (AthenaEvent.getQueryResults ∈ (athenaFetchBlock resp).2 ↔
      resp.state = "SUCCEEDED") ∧
    (resp.state = "SUCCEEDED" →
      (athenaFetchBlock resp).1 = FetchOutcome.fetched resp.resultSet) ∧
    (resp.state ≠ "SUCCEEDED" →
      (athenaFetchBlock resp).1 = FetchOutcome.skipped ∧
      (athenaFetchBlock resp).2 = [AthenaEvent.sleep 10, AthenaEvent.getQueryExecution]) := by
  by_cases h : resp.state = "SUCCEEDED" <;> simp [athenaFetchBlock, h]

/-- Witness for C3: a SUCCEEDED execution fetches its result set. -/
theorem C3_witness :
    (athenaFetchBlock ⟨"SUCCEEDED", "rows"⟩).1 = FetchOutcome.fetched "rows" ∧
    AthenaEvent.getQueryResults ∈ (athenaFetchBlock ⟨"SUCCEEDED", "rows"⟩).2 :=
  ⟨(C3_amended_fetch_guarded_silent_skip ⟨"SUCCEEDED", "rows"⟩).2.1 rfl,
   (C3_amended_fetch_guarded_silent_skip ⟨"SUCCEEDED", "rows"⟩).1.mpr rfl⟩

/-! ## Theorems about the S3 wrapper functions -/

/-- A client whose `list_buckets` call fails. -/
def listFailClient : S3Client :=
  { baseClient with listBucketsResp := .error (.clientError "InternalError") }

/-- Claim C5, as stated, at a client whose `list_buckets` call raises: the
failure does not surface to the caller of `get_list_of_existing_buckets` —
the function returns the empty list, exactly the value it returns for a
client that succeeds with zero buckets, so the external failure is converted
into a normal-looking return value that hides it. -/
theorem C5_counterexample :
    listFailClient.listBucketsResp =
      Except.error (PyExc.clientError "InternalError") ∧
    get_list_of_existing_buckets listFailClient = Except.ok [] ∧
    baseClient.listBucketsResp = Except.ok [] ∧
    get_list_of_existing_buckets listFailClient =
      get_list_of_existing_buckets baseClient :=
  ⟨rfl, rfl, rfl, rfl⟩

/-- Claim C5 amended: `ClientError`s from the S3 calls do not surface as
exceptions — `create_bucket` and `delete_bucket` catch them and return
`False`, and `get_list_of_existing_buckets` catches them and returns the
empty list, a value indistinguishable from a successful listing of an
account with no buckets. -/
theorem C5_amended_errors_swallowed_to_sentinels (c : S3Client) (b : String)
    (r : Option String) (code1 code2 code3 : String)
    (h1 : c.createBucketResp b r = .error (.clientError code1))
    (h2 : c.deleteBucketResp b = .error (.clientError code2))
    (h3 : c.listBucketsResp = .error (.clientError code3)) :
    create_bucket c b r = .ok false ∧
    (delete_bucket c b).1 = .ok false ∧
    get_list_of_existing_buckets c = .ok [] ∧
    get_list_of_existing_buckets c = get_list_of_existing_buckets baseClient := by
  simp [create_bucket, delete_bucket, get_list_of_existing_buckets, h1, h2, h3,
    baseClient]

/-- A client all of whose mutating calls fail with `ClientError`s. -/
def allFailClient : S3Client :=
  { baseClient with
    createBucketResp := fun _ _ => .error (.clientError "AccessDenied")
    deleteBucketResp := fun _ => .error (.clientError "AccessDenied")
    listBucketsResp := .error (.clientError "InternalError") }

/-- Witness for C5 amended, at `allFailClient`. -/
theorem C5_witness :
    create_bucket allFailClient "bkt" none = Except.ok false ∧
    (delete_bucket allFailClient "bkt").1 = Except.ok false ∧
    get_list_of_existing_buckets allFailClient = Except.ok [] ∧
    get_list_of_existing_buckets allFailClient =
      get_list_of_existing_buckets baseClient :=
  C5_amended_errors_swallowed_to_sentinels allFailClient "bkt" none
    "AccessDenied" "AccessDenied" "InternalError" rfl rfl rfl

/-- A client whose `get_bucket_cors` call fails with an error other than
`NoSuchCORSConfiguration`. -/
def corsFailClient : S3Client :=
  { baseClient with
    getBucketCorsResp := fun _ => .error (.clientError "AccessDenied") }

/-- Claim C6, as stated, at a client whose `get_bucket_cors` call fails with
`AccessDenied`: the claim says every non-"not found" remote error raises, but
`get_bucket_cors` returns Python `None` (here `.ok none`) instead of
raising. -/
theorem C6_counterexample :
    corsFailClient.getBucketCorsResp "bkt" =
      Except.error (PyExc.clientError "AccessDenied") ∧
    ("AccessDenied" : String) ≠ "NoSuchCORSConfiguration" ∧
    get_bucket_cors corsFailClient "bkt" = Except.ok none :=
  ⟨rfl, by decide, rfl⟩

/-- Claim C6 amended: `get_crawler` behaves as the claim says —
`EntityNotFoundException` is informational (returns `None`), every other
`ClientError` re-raises; but `get_bucket_cors` only matches the claim on the
"not found" half — `NoSuchCORSConfiguration` yields the empty list, while
every other `ClientError` yields Python `None` without raising. -/
theorem C6_amended_notfound_informational (gc : GlueClient) (sc : S3Client)
    (n1 n2 b1 b2 codeG codeC : String)
    (h1 : gc.getCrawlerResp n1 = .error (.clientError "EntityNotFoundException"))
    (h2 : gc.getCrawlerResp n2 = .error (.clientError codeG))
    (hg : codeG ≠ "EntityNotFoundException")
    (h3 : sc.getBucketCorsResp b1 = .error (.clientError "NoSuchCORSConfiguration"))
    (h4 : sc.getBucketCorsResp b2 = .error (.clientError codeC))
    (hc : codeC ≠ "NoSuchCORSConfiguration") :
    get_crawler gc n1 = .ok none ∧
    get_crawler gc n2 = .error (.clientError codeG) ∧
    get_bucket_cors sc b1 = .ok (some []) ∧
    get_bucket_cors sc b2 = .ok none := by
  simp [get_crawler, get_bucket_cors, h1, h2, h3, h4, hg, hc]

/-- A Glue client knowing no crawler named `absent` and denying access to
any other. -/
def witnessGlueClient : GlueClient where
  getCrawlerResp := fun n =>
    if n = "absent" then .error (.clientError "EntityNotFoundException")
    else .error (.clientError "AccessDenied")

/-- An S3 client with no CORS configured on bucket `plain` and denying
access to any other. -/
def witnessCorsClient : S3Client :=
  { baseClient with
    getBucketCorsResp := fun b =>
      if b = "plain" then .error (.clientError "NoSuchCORSConfiguration")
      else .error (.clientError "AccessDenied") }

/-- Witness for C6 amended, at the two concrete clients. -/
theorem C6_witness :
    get_crawler witnessGlueClient "absent" = Except.ok none ∧
    get_crawler witnessGlueClient "secret" =
      Except.error (PyExc.clientError "AccessDenied") ∧
    get_bucket_cors witnessCorsClient "plain" = Except.ok (some []) ∧
    get_bucket_cors witnessCorsClient "secret" = Except.ok none :=
  C6_amended_notfound_informational witnessGlueClient witnessCorsClient
    "absent" "secret" "plain" "secret" "AccessDenied" "AccessDenied"
    rfl rfl (by decide) rfl rfl (by decide)

/-- Claim C8, confirmed: when the object listing succeeds and is empty,
`nuke_bucket` passes the empty list to `delete_objects_from_bucket`, whose
empty-list check raises `ValueError`; `ValueError` is not a `ClientError`, so
it escapes `nuke_bucket`'s `except` clause — the bucket is never deleted and
no boolean is returned. -/
theorem C8_nuke_bucket_empty_listing_raises_valueerror (c : S3Client) (b : String)
    (h : c.listObjectsResp b = .ok []) :
    (nuke_bucket c b).1 =
      Except.error (PyExc.valueError "object_list must not be empty") ∧
    (nuke_bucket c b).2 = [RemoteCall.listObjects b] ∧
    RemoteCall.deleteBucket b ∉ (nuke_bucket c b).2 := by
  simp [nuke_bucket, get_list_objects_in_bucket, h, delete_objects_from_bucket,
    catchClientError]

/-- Witness for C8, at `baseClient` whose listings are empty. -/
theorem C8_witness :
    (nuke_bucket baseClient "bkt").1 =
      Except.error (PyExc.valueError "object_list must not be empty") ∧
    (nuke_bucket baseClient "bkt").2 = [RemoteCall.listObjects "bkt"] ∧
    RemoteCall.deleteBucket "bkt" ∉ (nuke_bucket baseClient "bkt").2 :=
  C8_nuke_bucket_empty_listing_raises_valueerror baseClient "bkt" rfl

/-- Claim C9, confirmed: `delete_objects_from_bucket` raises `TypeError`
exactly when `object_list` is not a list and `ValueError` exactly when it is
the empty list, in both cases before any remote call; a one-element list
leads to a single `delete_object` call with that key, a longer list to a
single `delete_objects` call with all keys. -/
theorem C9_delete_objects_validation (c : S3Client) (b : String)
    (ol : PyObjectList) :
    ((delete_objects_from_bucket c b ol).1 =
        .error (.typeError "object_list must be a list") ↔
      ol = PyObjectList.nonList) ∧
    ((delete_objects_from_bucket c b ol).1 =
        .error (.valueError "object_list must not be empty") ↔
      ol = PyObjectList.strList []) ∧
    ((ol = PyObjectList.nonList ∨ ol = PyObjectList.strList []) →
      (delete_objects_from_bucket c b ol).2 = []) ∧
    (∀ k, ol = PyObjectList.strList [k] →
      (delete_objects_from_bucket c b ol).2 = [RemoteCall.deleteObject b k]) ∧
    (∀ k1 k2 ks, ol = PyObjectList.strList (k1 :: k2 :: ks) →
      (delete_objects_from_bucket c b ol).2 =
        [RemoteCall.deleteObjects b (k1 :: k2 :: ks)]) := by
  match ol with
  | .nonList => simp [delete_objects_from_bucket]
  | .strList [] => simp [delete_objects_from_bucket]
  | .strList [k] =>
    cases hk : c.deleteObjectResp b k <;>
      simp [delete_objects_from_bucket, hk]
  | .strList (k1 :: k2 :: ks) =>
    cases hk : c.deleteObjectsResp b (k1 :: k2 :: ks) <;>
      simp [delete_objects_from_bucket, hk]

/-- Witness for C9, at a two-element list and at a non-list argument. -/
theorem C9_witness :
    (delete_objects_from_bucket baseClient "bkt"
        (PyObjectList.strList ["k1", "k2"])).2 =
      [RemoteCall.deleteObjects "bkt" ["k1", "k2"]] ∧
    (delete_objects_from_bucket baseClient "bkt" PyObjectList.nonList).1 =
      Except.error (PyExc.typeError "object_list must be a list") ∧
    (delete_objects_from_bucket baseClient "bkt" PyObjectList.nonList).2 = [] :=
  ⟨(C9_delete_objects_validation baseClient "bkt"
      (PyObjectList.strList ["k1", "k2"])).2.2.2.2 "k1" "k2" [] rfl,
   (C9_delete_objects_validation baseClient "bkt" PyObjectList.nonList).1.mpr rfl,
   (C9_delete_objects_validation baseClient "bkt" PyObjectList.nonList).2.2.1
     (Or.inl rfl)⟩

/-- Claim C10, confirmed: `check_if_bucket_exists` returns `True` exactly
when the name occurs in a successfully retrieved listing; when `list_buckets`
fails with a `ClientError`, `get_list_of_existing_buckets` returns the empty
list, so `check_if_bucket_exists` returns `False` — the same answer as for a
client that genuinely has no such bucket. -/
theorem C10_check_if_bucket_exists_listing (c1 c2 : S3Client) (b : String)
    (bs : List String) (e : String)
    (h1 : c1.listBucketsResp = .ok bs)
    (h2 : c2.listBucketsResp = .error (.clientError e)) :
    check_if_bucket_exists c1 b = .ok (bs.contains b) ∧
    get_list_of_existing_buckets c2 = .ok [] ∧
    check_if_bucket_exists c2 b = .ok false ∧
    check_if_bucket_exists c2 b = check_if_bucket_exists baseClient b := by
  simp [check_if_bucket_exists, get_list_of_existing_buckets, h1, h2, baseClient]

/-- A client owning two buckets. -/
def twoBucketClient : S3Client :=
  { baseClient with listBucketsResp := .ok ["alpha", "beta"] }

/-- Witness for C10, at a two-bucket client and a failing-listing client. -/
theorem C10_witness :
    check_if_bucket_exists twoBucketClient "alpha" =
      Except.ok ((["alpha", "beta"] : List String).contains "alpha") ∧
    get_list_of_existing_buckets listFailClient = Except.ok [] ∧
    check_if_bucket_exists listFailClient "alpha" = Except.ok false ∧
    check_if_bucket_exists listFailClient "alpha" =
      check_if_bucket_exists baseClient "alpha" :=
  C10_check_if_bucket_exists_listing twoBucketClient listFailClient "alpha"
    ["alpha", "beta"] "InternalError" rfl rfl

end DataEngStudies
